import Mathlib

/-!
Shallow embedding of the publictunnel relay (dachinat/publictunnel).

Sources embedded here:
  * src/internal/protocol/protocol.go — wire types (ControlMessage envelope
    and the payload structs).
  * src/internal/server/server.go — liveness constants, `handleRequest`
    (Host-header routing), the registration part of `handleWebSocket`
    (subdomain allocation), the response-frame branch of the relay read
    loop (the Pending-Request Table `deliver` step), and `proxyToClient`.
  * src/internal/client/client.go — liveness constants and `handleRequest`
    (the per-request task: local call, 502 synthesis, response frame).

Modelling conventions:
  * Go maps (`clients`, `pendingReqs`) are total functions `String → Option _`.
  * The buffered channel `make(chan *HttpResponsePayload, 1)` backing a
    pending-request slot is a `Slot`: an optional buffered message plus a
    flag recording whether a receiver is parked at the `select`.
  * Byte slices (request/response bodies) are modelled as `String`.
  * Randomness (`uuid.New().String()[:8]`, `[:4]`) and the outcomes of
    external calls (`conn.WriteJSON`, `http.NewRequest`, `httpClient.Do`,
    the `select` wait) are passed in as explicit parameters.
  * `encoding/json` decoding of the subset of JSON shapes the code touches
    is modelled by a small `Json` inductive with exact-key field lookup;
    `json.Unmarshal` into a struct whose error the code ignores is modelled
    by `Option.getD` with the struct's zero value, which is exactly what
    the ignored-error pattern leaves behind.
-/

namespace PublicTunnel

/-! ### protocol.go -/

/-- `MessageType` constants from protocol.go. -/
def TypeRegister : String := "REGISTER"

def TypeRegisterResp : String := "REGISTER_RESP"

def TypeHttpRequest : String := "HTTP_REQUEST"

def TypeHttpResponse : String := "HTTP_RESPONSE"

def TypeError : String := "ERROR"

/-- `RegisterPayload { Subdomain string }`. -/
structure RegisterPayload where
  subdomain : String
deriving Repr, DecidableEq

/-- `HttpRequestPayload { ID, Method, Path, Headers, Body }`. -/
structure HttpRequestPayload where
  id : String
  method : String
  path : String
  headers : List (String × List String)
  body : String
deriving Repr, DecidableEq

/-- `HttpResponsePayload { ID, Status, Headers, Body }`. -/
structure HttpResponsePayload where
  id : String
  status : Int
  headers : List (String × List String)
  body : String
deriving Repr, DecidableEq

/-- Zero value of `HttpResponsePayload`, as left by an ignored
`json.Unmarshal` error. -/
def HttpResponsePayload.zero : HttpResponsePayload :=
  { id := "", status := 0, headers := [], body := "" }

/-! ### A small JSON universe, for the handshake decoding (server.go 119–131) -/

/-- JSON values, as far as the decoding paths of the repository look at
them.  `num` carries an integer; nothing in the embedded paths inspects
fractional parts. -/
inductive Json where
  | null
  | bool (b : Bool)
  | num (n : Int)
  | str (s : String)
  | arr (elems : List Json)
  | obj (fields : List (String × Json))
deriving Repr

/-- First field with the given key, mirroring a JSON object lookup
(examples in this file use distinct keys, where Go's last-wins rule and
first-match agree). -/
def Json.getField : List (String × Json) → String → Option Json
  | [], _ => none
  | (k, v) :: rest, key => if k = key then some v else Json.getField rest key

/-- The `ControlMessage` envelope after `json.Unmarshal`: a `Type` string
and the still-opaque `Payload` (Go `interface{}`, here kept as `Json`). -/
structure ControlMessage where
  type : String
  payload : Json
deriving Repr

/-- `json.Unmarshal(msg, &ctrl)` for `ControlMessage`: the document must be
an object (or `null`, which Go accepts and leaves the zero struct); the
`"type"` field, when present, must be a string; `"payload"` is captured
verbatim (absent ⇒ Go `nil` interface, modelled as `Json.null`). -/
def decodeControlMessage : Json → Option ControlMessage
  | Json.null => some { type := "", payload := Json.null }
  | Json.obj fields =>
    match Json.getField fields "type" with
    | none => some { type := "", payload := (Json.getField fields "payload").getD Json.null }
    | some (Json.str s) => some { type := s, payload := (Json.getField fields "payload").getD Json.null }
    | some _ => none
  | _ => none

/-- `json.Unmarshal` of a payload into `RegisterPayload`: the value must be
an object (or `null`); a present `"subdomain"` field must be a string,
an absent one leaves the zero value `""`.  `none` is the error case the
server code ignores. -/
def decodeRegisterPayload : Json → Option RegisterPayload
  | Json.null => some { subdomain := "" }
  | Json.obj fields =>
    match Json.getField fields "subdomain" with
    | none => some { subdomain := "" }
    | some (Json.str s) => some { subdomain := s }
    | some _ => none
  | _ => none

/-! ### Connection Registry and Pending-Request Table (server.go) -/

/-- `s.clients map[string]*ClientConn`: connection handles are numbered. -/
abbrev Registry := String → Option Nat

/-- Go map assignment `m[k] = v`. -/
def Registry.insert (m : Registry) (k : String) (v : Nat) : Registry :=
  fun k' => if k' = k then some v else m k'

/-- Go `delete(m, k)`. -/
def Registry.erase (m : Registry) (k : String) : Registry :=
  fun k' => if k' = k then none else m k'

/-- State of one pending-request slot, i.e. of its
`make(chan *protocol.HttpResponsePayload, 1)`: the capacity-1 buffer, and
whether the `proxyToClient` goroutine is currently parked at the `select`
receive. -/
structure Slot where
  buf : Option HttpResponsePayload
  receiverWaiting : Bool
deriving Repr, DecidableEq

/-- A freshly made slot: empty buffer, receiver not yet at the `select`. -/
def Slot.new : Slot := { buf := none, receiverWaiting := false }

/-- `s.pendingReqs map[string]chan *protocol.HttpResponsePayload`. -/
abbrev Pending := String → Option Slot

def Pending.insert (m : Pending) (k : String) (v : Slot) : Pending :=
  fun k' => if k' = k then some v else m k'

def Pending.erase (m : Pending) (k : String) : Pending :=
  fun k' => if k' = k then none else m k'

/-- The empty pending table. -/
def Pending.empty : Pending := fun _ => none

/-! ### Subdomain allocation (server.go 133–146) -/

/-- The registration/binding step of `handleWebSocket`: empty request ⇒
`uuid.New().String()[:8]`; if the name is taken, append
`"-" ++ uuid.New().String()[:4]` — with no re-check — and bind.  The two
random strings are explicit parameters. -/
def registerClient (clients : Registry) (requested : String)
    (rand8 rand4 : String) (conn : Nat) : String × Registry :=
  let subdomain := if requested = "" then rand8 else requested
  let subdomain :=
    if (clients subdomain).isSome then subdomain ++ "-" ++ rand4 else subdomain
  (subdomain, clients.insert subdomain conn)

/-! ### The handshake of `handleWebSocket` (server.go 119–148) -/

/-- Result of the handshake: either the connection is dropped before a
registration completes (`return` in Go), or a subdomain is bound. -/
inductive HandshakeResult where
  | dropped
  | registered (assigned : String) (clients : Registry)

/-- `true` iff a registration completed. -/
def HandshakeResult.isRegistered : HandshakeResult → Bool
  | .dropped => false
  | .registered _ _ => true

/-- Assigned name of a completed registration. -/
def HandshakeResult.assigned : HandshakeResult → Option String
  | .dropped => none
  | .registered a _ => some a

/-- `handleWebSocket` up to binding: read one message (already parsed into
`msg : Json`; an unreadable frame or non-JSON text also drops, outside this
model), `json.Unmarshal` it into `ControlMessage` — error or wrong type ⇒
`return` — then re-decode the payload as `RegisterPayload` with the error
*ignored* (zero value on failure), and allocate via `registerClient`. -/
def handleWebSocketHandshake (clients : Registry) (msg : Json)
    (rand8 rand4 : String) (conn : Nat) : HandshakeResult :=
  match decodeControlMessage msg with
  | none => .dropped
  | some ctrl =>
    if ctrl.type ≠ TypeRegister then .dropped
    else
      let reg := (decodeRegisterPayload ctrl.payload).getD { subdomain := "" }
      let r := registerClient clients reg.subdomain rand8 rand4 conn
      .registered r.1 r.2

/-! ### The `deliver` step of the relay read loop (server.go 203–214) -/

/-- What the channel send `ch <- &httpResp` did. -/
inductive DeliverEffect where
  | dropped
  | handedToReceiver
  | buffered
  | wouldBlock
deriving Repr, DecidableEq

/-- Processing of one decoded HttpResponse payload by the relay read loop:
look up `s.pendingReqs[httpResp.ID]` (under `RLock`); if absent, nothing
happens; if present, `ch <- &httpResp` — a Go send on a capacity-1 channel:
hand to a parked receiver if there is one, otherwise place in the buffer if
free, otherwise the send blocks.  The table entry is *not* removed here
(removal is `proxyToClient`'s deferred `delete`). -/
def deliver (pending : Pending) (resp : HttpResponsePayload) :
    Pending × DeliverEffect :=
  match pending resp.id with
  | none => (pending, .dropped)
  | some s =>
    if s.receiverWaiting then
      (pending.insert resp.id { s with receiverWaiting := false }, .handedToReceiver)
    else
      match s.buf with
      | none => (pending.insert resp.id { s with buf := some resp }, .buffered)
      | some _ => (pending, .wouldBlock)

/-! ### Liveness constants (server.go 18–27 and client.go 18–27) -/

/-- `time.Second` in nanoseconds (`time.Duration` is an int64 nanosecond
count). -/
def second : Int := 1000000000

namespace Server

/-- server.go: `pongWait = 60 * time.Second`. -/
def pongWait : Int := 60 * second

/-- server.go: `pingPeriod = (pongWait * 9) / 10`. -/
def pingPeriod : Int := (pongWait * 9) / 10

/-- server.go: `writeWait = 10 * time.Second`. -/
def writeWait : Int := 10 * second

end Server

namespace Client

/-- client.go: `pongWait = 60 * time.Second`. -/
def pongWait : Int := 60 * second

/-- client.go: `pingPeriod = (pongWait * 9) / 10`. -/
def pingPeriod : Int := (pongWait * 9) / 10

/-- client.go: `writeWait = 10 * time.Second`. -/
def writeWait : Int := 10 * second

end Client

/-- server.go 271: `time.After(30 * time.Second)` — the wait bound of
`proxyToClient`, in nanoseconds. -/
def proxyWaitTimeout : Int := 30 * second

/-! ### proxyToClient (server.go 219–274) -/

/-- The incoming public HTTP request, as `proxyToClient` reads it
(`r.Method`, `r.URL.Path`, `r.Header`, `io.ReadAll(r.Body)`). -/
structure IncomingRequest where
  method : String
  path : String
  headers : List (String × List String)
  body : String
deriving Repr, DecidableEq

/-- What is written back to the public caller. -/
inductive HttpReply where
  /-- the `/ws` branch: the connection is upgraded and `handleWebSocket`
  takes over. -/
  | wsUpgrade
  /-- 200 with the `"PublicTunnel Server is running..."` banner. -/
  | statusPage
  /-- `http.Error(w, message, status)`. -/
  | httpError (status : Int) (message : String)
  /-- the relayed response: `resp.Status`, `resp.Headers`, `resp.Body`
  replayed verbatim. -/
  | relayed (status : Int) (headers : List (String × List String)) (body : String)
deriving Repr, DecidableEq

/-- Result of handling one public request: the reply, the frame written to
a client control connection (if any write was attempted), and the
pending-request table afterwards. -/
structure HandleResult where
  reply : HttpReply
  writeAttempt : Option (Nat × HttpRequestPayload)
  pending : Pending

/-- `proxyToClient`: look the subdomain up; absent ⇒ 404 "Tunnel not
found"; present ⇒ make the slot, `defer delete`, `WriteJSON` (outcome
`writeOk` is an input), then `select` on the slot versus the 30 s timer
(outcome `waitOutcome` is an input: `some resp` = the channel receive won,
`none` = the timer won).  The deferred `delete(s.pendingReqs, reqID)` runs
on every exit path. -/
def proxyToClient (clients : Registry) (pending : Pending) (subdomain : String)
    (r : IncomingRequest) (reqID : String) (writeOk : Bool)
    (waitOutcome : Option HttpResponsePayload) : HandleResult :=
  match clients subdomain with
  | none => { reply := .httpError 404 "Tunnel not found", writeAttempt := none, pending := pending }
  | some conn =>
    let reqPayload : HttpRequestPayload :=
      { id := reqID, method := r.method, path := r.path, headers := r.headers, body := r.body }
    let pending1 := pending.insert reqID Slot.new
    if writeOk then
      match waitOutcome with
      | some resp =>
        { reply := .relayed resp.status resp.headers resp.body
          writeAttempt := some (conn, reqPayload)
          pending := pending1.erase reqID }
      | none =>
        { reply := .httpError 504 "Gateway timeout"
          writeAttempt := some (conn, reqPayload)
          pending := pending1.erase reqID }
    else
      { reply := .httpError 500 "Failed to send request to client"
        writeAttempt := some (conn, reqPayload)
        pending := pending1.erase reqID }

/-! ### handleRequest — Host-header routing (server.go 82–108) -/

/-- Server configuration (`Domain`, `TunnelDomain` after the
`NewTunnelServer` defaulting). -/
structure ServerConfig where
  domain : String
  tunnelDomain : String
deriving Repr, DecidableEq

/-- Go `strings.Index(host, ":")`-based port strip: everything before the
first `':'` (the whole string when there is none). -/
def stripPort (host : String) : String :=
  ⟨host.data.takeWhile (fun c => c ≠ ':')⟩

/-- Go `strings.HasSuffix`. -/
def strHasSuffix (s suffix : String) : Bool :=
  suffix.data.isSuffixOf s.data

/-- Go `strings.TrimSuffix`. -/
def strTrimSuffix (s suffix : String) : String :=
  if strHasSuffix s suffix then ⟨s.data.take (s.data.length - suffix.data.length)⟩
  else s

/-- `handleRequest`: strip the port; the control domain, the tunnel base
domain and the literal `"localhost"` get `/ws` registration or the status
page; a `.<tunnelDomain>` suffix is proxied via `proxyToClient`; anything
else is 404 "Not Found".  The relay-path oracles (`reqID`, `writeOk`,
`waitOutcome`) are threaded through to `proxyToClient`. -/
def handleRequest (cfg : ServerConfig) (clients : Registry) (pending : Pending)
    (host : String) (r : IncomingRequest) (reqID : String) (writeOk : Bool)
    (waitOutcome : Option HttpResponsePayload) : HandleResult :=
  let h := stripPort host
  if h = cfg.domain ∨ h = cfg.tunnelDomain ∨ h = "localhost" then
    if r.path = "/ws" then { reply := .wsUpgrade, writeAttempt := none, pending := pending }
    else { reply := .statusPage, writeAttempt := none, pending := pending }
  else if strHasSuffix h ("." ++ cfg.tunnelDomain) then
    let subdomain := strTrimSuffix h ("." ++ cfg.tunnelDomain)
    proxyToClient clients pending subdomain r reqID writeOk waitOutcome
  else
    { reply := .httpError 404 "Not Found", writeAttempt := none, pending := pending }

/-! ### The client's per-request task (client.go 126–164) -/

/-- The local `http.Client.Do` response, as far as `handleRequest` reads
it (`resp.StatusCode`, `resp.Header`, `io.ReadAll(resp.Body)`). -/
structure LocalResponse where
  statusCode : Int
  headers : List (String × List String)
  body : String
deriving Repr, DecidableEq

/-- Outcome of `c.httpClient.Do(httpReq)`. -/
inductive LocalCallResult where
  | failure (errText : String)
  | success (resp : LocalResponse)
deriving Repr, DecidableEq

/-- A frame the client writes back over the control connection. -/
structure OutFrame where
  type : String
  payload : HttpResponsePayload
deriving Repr, DecidableEq

/-- client.go `handleRequest` (the spawned per-request task):
`http.NewRequest` failure (`newRequestError = some _`) ⇒ log and `return`
with *no* frame sent; otherwise do the local call; on failure synthesize
`502` with body `"Local request failed: <err>"`, on success take status,
headers and body verbatim; either way tag with the original `req.ID` and
send one HttpResponse frame. -/
def clientHandleRequest (req : HttpRequestPayload)
    (newRequestError : Option String) (callResult : LocalCallResult) :
    Option OutFrame :=
  match newRequestError with
  | some _ => none
  | none =>
    let respPayload : HttpResponsePayload :=
      match callResult with
      | .failure errText =>
        { id := req.id, status := 502, headers := [], body := "Local request failed: " ++ errText }
      | .success resp =>
        { id := req.id, status := resp.statusCode, headers := resp.headers, body := resp.body }
    some { type := TypeHttpResponse, payload := respPayload }

/-! ### Helper lemmas -/

/-- Removing a key just inserted over a table where it was absent restores
the table — the `defer delete` of `proxyToClient` undoes its insert. -/
theorem pending_erase_insert (p : Pending) (k : String) (v : Slot)
    (h : p k = none) : Pending.erase (Pending.insert p k v) k = p := by
  funext k'
  unfold Pending.erase Pending.insert
  by_cases hk : k' = k
  · simp [hk, h]
  · simp [hk]

/-- A registry binds the key just inserted to the inserted connection. -/
theorem registry_insert_self (m : Registry) (k : String) (v : Nat) :
    Registry.insert m k v k = some v := by
  simp [Registry.insert]

/-- `strings.HasSuffix (a ++ b) b` always holds. -/
theorem strHasSuffix_append (a b : String) : strHasSuffix (a ++ b) b = true := by
  simp only [strHasSuffix, String.data_append]
  exact List.isSuffixOf_iff_suffix.mpr (List.suffix_append a.data b.data)

/-- `strings.TrimSuffix (a ++ b) b = a`. -/
theorem strTrimSuffix_append (a b : String) : strTrimSuffix (a ++ b) b = a := by
  simp only [strTrimSuffix, strHasSuffix_append a b, if_true, String.data_append,
    List.length_append, Nat.add_sub_cancel]
  rw [List.take_left]

/-- On the relay path (subdomain registered, fresh correlation id) the
deferred `delete` restores the pending table on every exit of
`proxyToClient`. -/
theorem proxy_pending_restored (clients : Registry) (pending : Pending)
    (subdomain : String) (conn : Nat) (r : IncomingRequest) (reqID : String)
    (writeOk : Bool) (waitOutcome : Option HttpResponsePayload)
    (hconn : clients subdomain = some conn) (hfresh : pending reqID = none) :
    (proxyToClient clients pending subdomain r reqID writeOk waitOutcome).pending
      = pending := by
  unfold proxyToClient
  rw [hconn]
  cases writeOk <;> cases waitOutcome <;>
    simp [pending_erase_insert pending reqID Slot.new hfresh]

/-- On the relay path, a successful write whose wait ends in the timeout
branch replies 504 "Gateway timeout". -/
theorem proxy_timeout_reply (clients : Registry) (pending : Pending)
    (subdomain : String) (conn : Nat) (r : IncomingRequest) (reqID : String)
    (hconn : clients subdomain = some conn) :
    (proxyToClient clients pending subdomain r reqID true none).reply
      = HttpReply.httpError 504 "Gateway timeout" := by
  unfold proxyToClient
  rw [hconn]
  rfl

/-! ### Claim theorems -/

/-- C7: on both server and client the liveness constants are exactly read
deadline 60 s, heartbeat interval 54 s (nine-tenths of the read deadline),
write deadline 10 s, and the two sides' constants are pairwise equal. -/
theorem c7_liveness_constants :
    Server.pongWait = 60 * second ∧
    Server.pingPeriod = 54 * second ∧
    Server.writeWait = 10 * second ∧
    Client.pongWait = Server.pongWait ∧
    Client.pingPeriod = Server.pingPeriod ∧
    Client.writeWait = Server.writeWait ∧
    Server.pingPeriod * 10 = Server.pongWait * 9 := by
  refine ⟨?_, ?_, ?_, rfl, rfl, rfl, ?_⟩ <;> decide

/-- C8: for every inbound HttpRequest frame the client can build a local
request for, a local-call failure produces an HttpResponse frame with the
original correlationID, status 502 and a body carrying the error text,
while a local-call success produces a frame with the original
correlationID and the local response's status, headers and body
unmodified. -/
theorem c8_client_response (req : HttpRequestPayload) (errText : String)
    (resp : LocalResponse) :
    clientHandleRequest req none (LocalCallResult.failure errText)
      = some { type := TypeHttpResponse
               payload := { id := req.id, status := 502, headers := []
                            body := "Local request failed: " ++ errText } } ∧
    (∃ p, "Local request failed: " ++ errText = p ++ errText) ∧
    clientHandleRequest req none (LocalCallResult.success resp)
      = some { type := TypeHttpResponse
               payload := { id := req.id, status := resp.statusCode
                            headers := resp.headers, body := resp.body } } :=
  ⟨rfl, ⟨"Local request failed: ", rfl⟩, rfl⟩

/-- C2: when the relayed request's wait ends by timeout the caller gets a
504 "Gateway timeout" reply, the timeout constant is 30 seconds, and on
every outcome (response, timeout, or write failure) the deferred delete
removes the slot, restoring the pending table to its baseline. -/
theorem c2_timeout_and_cleanup (clients : Registry) (pending : Pending)
    (subdomain : String) (conn : Nat) (r : IncomingRequest) (reqID : String)
    (writeOk : Bool) (waitOutcome : Option HttpResponsePayload)
    (hconn : clients subdomain = some conn) (hfresh : pending reqID = none) :
    (proxyToClient clients pending subdomain r reqID writeOk waitOutcome).pending = pending ∧
    (writeOk = true → waitOutcome = none →
      (proxyToClient clients pending subdomain r reqID writeOk waitOutcome).reply
        = HttpReply.httpError 504 "Gateway timeout") ∧
    proxyWaitTimeout = 30 * second := by
  refine ⟨proxy_pending_restored clients pending subdomain conn r reqID
    writeOk waitOutcome hconn hfresh, ?_, rfl⟩
  intro hw ht
  subst hw ht
  exact proxy_timeout_reply clients pending subdomain conn r reqID hconn

/-- C2 witness: a concrete registered subdomain whose client never
answers — 504 reply and the table returns to its baseline. -/
theorem c2_timeout_and_cleanup_witness :
    (proxyToClient (Registry.insert (fun _ => none) "demo" 0) Pending.empty
      "demo" ⟨"GET", "/health", [], ""⟩ "id1" true none).pending = Pending.empty ∧
    (proxyToClient (Registry.insert (fun _ => none) "demo" 0) Pending.empty
      "demo" ⟨"GET", "/health", [], ""⟩ "id1" true none).reply
      = HttpReply.httpError 504 "Gateway timeout" := by
  have h := c2_timeout_and_cleanup (Registry.insert (fun _ => none) "demo" 0)
    Pending.empty "demo" 0 ⟨"GET", "/health", [], ""⟩ "id1" true none
    (by decide) rfl
  exact ⟨h.1, h.2.1 rfl rfl⟩

/-- C5 counterexample: on a write failure the code replies with status 500
(`http.StatusInternalServerError`), not a 502 — the claim's "502-class
error" names the wrong status. -/
theorem c5_counterexample :
    (proxyToClient (Registry.insert (fun _ => none) "demo" 0) Pending.empty
      "demo" ⟨"GET", "/health", [], ""⟩ "id1" false none).reply
      = HttpReply.httpError 500 "Failed to send request to client" ∧
    HttpReply.httpError 500 "Failed to send request to client"
      ≠ HttpReply.httpError 502 "Failed to send request to client" := by
  refine ⟨?_, by decide⟩
  rfl

/-- C5 (amended): when the write of the request frame to the owning client
connection fails, the router responds immediately with a 500 Internal
Server Error ("Failed to send request to client") and skips the wait on
the pending slot — the outcome of the wait has no influence on the
result. -/
theorem c5_write_failure (clients : Registry) (pending : Pending)
    (subdomain : String) (conn : Nat) (r : IncomingRequest) (reqID : String)
    (waitOutcome : Option HttpResponsePayload)
    (hconn : clients subdomain = some conn) :
    (proxyToClient clients pending subdomain r reqID false waitOutcome).reply
      = HttpReply.httpError 500 "Failed to send request to client" ∧
    proxyToClient clients pending subdomain r reqID false waitOutcome
      = proxyToClient clients pending subdomain r reqID false none := by
  unfold proxyToClient
  rw [hconn]
  exact ⟨rfl, rfl⟩

/-- C5 witness: the write-failure reply on a concrete registered
subdomain, identical whatever the wait oracle says. -/
theorem c5_write_failure_witness :
    (proxyToClient (Registry.insert (fun _ => none) "demo" 0) Pending.empty
      "demo" ⟨"GET", "/health", [], ""⟩ "id1" false
      (some ⟨"id1", 200, [], "late"⟩)).reply
      = HttpReply.httpError 500 "Failed to send request to client" ∧
    proxyToClient (Registry.insert (fun _ => none) "demo" 0) Pending.empty
      "demo" ⟨"GET", "/health", [], ""⟩ "id1" false
      (some ⟨"id1", 200, [], "late"⟩)
      = proxyToClient (Registry.insert (fun _ => none) "demo" 0) Pending.empty
        "demo" ⟨"GET", "/health", [], ""⟩ "id1" false none :=
  c5_write_failure (Registry.insert (fun _ => none) "demo" 0) Pending.empty
    "demo" 0 ⟨"GET", "/health", [], ""⟩ "id1"
    (some ⟨"id1", 200, [], "late"⟩) (by decide)

/-- C10: when `http.NewRequest` fails for an inbound HttpRequest frame the
client's task sends no HttpResponse frame at all, so a server-side slot
that never receives a delivery resolves by the 30-second timeout: the
public caller gets the 504 "Gateway timeout" reply and the slot is
removed. -/
theorem c10_newrequest_failure (req : HttpRequestPayload) (errText : String)
    (callResult : LocalCallResult) (clients : Registry) (pending : Pending)
    (subdomain : String) (conn : Nat) (r : IncomingRequest) (reqID : String)
    (hconn : clients subdomain = some conn) (hfresh : pending reqID = none) :
    clientHandleRequest req (some errText) callResult = none ∧
    (proxyToClient clients pending subdomain r reqID true none).reply
      = HttpReply.httpError 504 "Gateway timeout" ∧
    (proxyToClient clients pending subdomain r reqID true none).pending = pending ∧
    proxyWaitTimeout = 30 * second :=
  ⟨rfl, proxy_timeout_reply clients pending subdomain conn r reqID hconn,
   proxy_pending_restored clients pending subdomain conn r reqID true none
     hconn hfresh, rfl⟩

/-- C10 witness: a concrete frame whose method is rejected by
`http.NewRequest`, and a concrete pending slot resolved by timeout. -/
theorem c10_newrequest_failure_witness :
    clientHandleRequest ⟨"id1", "BAD METHOD", "/x", [], ""⟩
      (some "invalid method") (LocalCallResult.failure "unused") = none ∧
    (proxyToClient (Registry.insert (fun _ => none) "demo" 0) Pending.empty
      "demo" ⟨"GET", "/x", [], ""⟩ "id1" true none).reply
      = HttpReply.httpError 504 "Gateway timeout" := by
  have h := c10_newrequest_failure ⟨"id1", "BAD METHOD", "/x", [], ""⟩
    "invalid method" (LocalCallResult.failure "unused")
    (Registry.insert (fun _ => none) "demo" 0) Pending.empty "demo" 0
    ⟨"GET", "/x", [], ""⟩ "id1" (by decide) rfl
  exact ⟨h.1, h.2.1⟩

/-- C9: after port stripping, a Host of literally "localhost" is routed
exactly like the configured control domain — `/ws` reaches the
registration upgrade, every other path gets the status page — even when
"localhost" is neither the control domain nor the tunnel base domain. -/
theorem c9_localhost_alias (cfg : ServerConfig) (clients : Registry)
    (pending : Pending) (host : String) (r : IncomingRequest) (reqID : String)
    (writeOk : Bool) (waitOutcome : Option HttpResponsePayload)
    (hhost : stripPort host = "localhost")
    (_hd : cfg.domain ≠ "localhost") (_ht : cfg.tunnelDomain ≠ "localhost")
    (hcd : stripPort cfg.domain = cfg.domain) :
    handleRequest cfg clients pending host r reqID writeOk waitOutcome
      = handleRequest cfg clients pending cfg.domain r reqID writeOk waitOutcome ∧
    (r.path = "/ws" →
      (handleRequest cfg clients pending host r reqID writeOk waitOutcome).reply
        = HttpReply.wsUpgrade) ∧
    (r.path ≠ "/ws" →
      (handleRequest cfg clients pending host r reqID writeOk waitOutcome).reply
        = HttpReply.statusPage) := by
  have hl : stripPort host = cfg.domain ∨ stripPort host = cfg.tunnelDomain
      ∨ stripPort host = "localhost" := Or.inr (Or.inr hhost)
  have hc : stripPort cfg.domain = cfg.domain ∨ stripPort cfg.domain = cfg.tunnelDomain
      ∨ stripPort cfg.domain = "localhost" := Or.inl hcd
  refine ⟨?_, ?_, ?_⟩
  · unfold handleRequest
    rw [if_pos hl, if_pos hc]
  · intro hp
    unfold handleRequest
    rw [if_pos hl, if_pos hp]
  · intro hp
    unfold handleRequest
    rw [if_pos hl, if_neg hp]

/-- C9 witness: "localhost:4000" against the default configuration. -/
theorem c9_localhost_alias_witness :
    handleRequest ⟨"server.publictunnel.com", "publictunnel.com"⟩
      (fun _ => none) Pending.empty "localhost:4000" ⟨"GET", "/ws", [], ""⟩
      "id1" true none
      = handleRequest ⟨"server.publictunnel.com", "publictunnel.com"⟩
        (fun _ => none) Pending.empty "server.publictunnel.com"
        ⟨"GET", "/ws", [], ""⟩ "id1" true none ∧
    (handleRequest ⟨"server.publictunnel.com", "publictunnel.com"⟩
      (fun _ => none) Pending.empty "localhost:4000" ⟨"GET", "/ws", [], ""⟩
      "id1" true none).reply = HttpReply.wsUpgrade := by
  have h := c9_localhost_alias ⟨"server.publictunnel.com", "publictunnel.com"⟩
    (fun _ => none) Pending.empty "localhost:4000" ⟨"GET", "/ws", [], ""⟩
    "id1" true none (by decide) (by decide) (by decide) (by decide)
  exact ⟨h.1, h.2.1 rfl⟩

/-- C6 counterexample: under the default configuration the Host
"server.publictunnel.com" *is* `<name>.<tunnelBaseDomain>` with the name
"server" absent from the registry, yet the server answers with the status
page (the control-domain branch wins), not with a 404. -/
theorem c6_counterexample :
    stripPort "server.publictunnel.com" = "server" ++ "." ++ "publictunnel.com" ∧
    (fun _ => none : Registry) "server" = none ∧
    (handleRequest ⟨"server.publictunnel.com", "publictunnel.com"⟩
      (fun _ => none) Pending.empty "server.publictunnel.com"
      ⟨"GET", "/health", [], ""⟩ "id1" true none).reply
      = HttpReply.statusPage := by
  refine ⟨by decide, rfl, by decide⟩

/-- C6 (amended): for a request whose stripped Host is
`<name>.<tunnelBaseDomain>` with `<name>` unregistered, *and* whose
stripped Host is none of the control domain, the tunnel base domain or
"localhost", the reply is the 404 "Tunnel not found", no frame is written
to any control connection, and the pending table is unchanged (the
registry is never touched by this path). -/
theorem c6_unknown_subdomain (cfg : ServerConfig) (clients : Registry)
    (pending : Pending) (name host : String) (r : IncomingRequest)
    (reqID : String) (writeOk : Bool) (waitOutcome : Option HttpResponsePayload)
    (hhost : stripPort host = name ++ "." ++ cfg.tunnelDomain)
    (hname : clients name = none)
    (hd : stripPort host ≠ cfg.domain) (ht : stripPort host ≠ cfg.tunnelDomain)
    (hl : stripPort host ≠ "localhost") :
    handleRequest cfg clients pending host r reqID writeOk waitOutcome
      = { reply := HttpReply.httpError 404 "Tunnel not found"
          writeAttempt := none, pending := pending } := by
  have hor : ¬(stripPort host = cfg.domain ∨ stripPort host = cfg.tunnelDomain
      ∨ stripPort host = "localhost") := by
    push_neg
    exact ⟨hd, ht, hl⟩
  have hsuf : strHasSuffix (stripPort host) ("." ++ cfg.tunnelDomain) = true := by
    rw [hhost, String.append_assoc]
    exact strHasSuffix_append name ("." ++ cfg.tunnelDomain)
  have htrim : strTrimSuffix (stripPort host) ("." ++ cfg.tunnelDomain) = name := by
    rw [hhost, String.append_assoc]
    exact strTrimSuffix_append name ("." ++ cfg.tunnelDomain)
  unfold handleRequest
  rw [if_neg hor, if_pos hsuf, htrim]
  simp [proxyToClient, hname]

/-- C6 witness: an unregistered "demo" subdomain under the default
configuration yields the 404 with no write and an untouched table. -/
theorem c6_unknown_subdomain_witness :
    handleRequest ⟨"server.publictunnel.com", "publictunnel.com"⟩
      (fun _ => none) Pending.empty "demo.publictunnel.com:443"
      ⟨"GET", "/health", [], ""⟩ "id1" true none
      = { reply := HttpReply.httpError 404 "Tunnel not found"
          writeAttempt := none, pending := Pending.empty } :=
  c6_unknown_subdomain ⟨"server.publictunnel.com", "publictunnel.com"⟩
    (fun _ => none) Pending.empty "demo" "demo.publictunnel.com:443"
    ⟨"GET", "/health", [], ""⟩ "id1" true none (by decide) rfl
    (by decide) (by decide) (by decide)

/-- C3 counterexample: with "demo" and "demo-ab12" both already bound, a
registration requesting "demo" whose random suffix comes out "ab12" binds
the name "demo-ab12" even though it is already owned by another
connection — the uniqueness check is *not* retried on the suffixed name,
the existing binding is overwritten. -/
theorem c3_counterexample :
    (Registry.insert (Registry.insert (fun _ => none) "demo" 0) "demo-ab12" 1)
      "demo-ab12" = some 1 ∧
    (registerClient
      (Registry.insert (Registry.insert (fun _ => none) "demo" 0) "demo-ab12" 1)
      "demo" "r8r8r8r8" "ab12" 2).1 = "demo-ab12" ∧
    (registerClient
      (Registry.insert (Registry.insert (fun _ => none) "demo" 0) "demo-ab12" 1)
      "demo" "r8r8r8r8" "ab12" 2).2 "demo-ab12" = some 2 := by
  refine ⟨by decide, by decide, by decide⟩

/-- C3 (amended): an empty request is assigned the fresh 8-character
random identifier; a free requested name is assigned verbatim; a taken
requested name is assigned `requested ++ "-" ++ <4-char random>` — a
distinct, strictly longer name — but it is bound *without* re-checking
uniqueness, so it silently overwrites any existing binding of the suffixed
name; in every case the assigned name ends up bound to the registering
connection. -/
theorem c3_register (clients : Registry) (requested rand8 rand4 : String)
    (conn : Nat) (h8 : rand8.length = 8) (h4 : rand4.length = 4) :
    (requested = "" → clients rand8 = none →
      (registerClient clients requested rand8 rand4 conn).1 = rand8 ∧
      (registerClient clients requested rand8 rand4 conn).1.length = 8) ∧
    (requested ≠ "" → clients requested = none →
      (registerClient clients requested rand8 rand4 conn).1 = requested) ∧
    (requested ≠ "" → (clients requested).isSome →
      (registerClient clients requested rand8 rand4 conn).1
        = requested ++ "-" ++ rand4 ∧
      (registerClient clients requested rand8 rand4 conn).1.length
        = requested.length + 5 ∧
      (registerClient clients requested rand8 rand4 conn).1 ≠ requested) ∧
    ((registerClient clients requested rand8 rand4 conn).2
      (registerClient clients requested rand8 rand4 conn).1 = some conn) := by
  refine ⟨?_, ?_, ?_, ?_⟩
  · intro he hf
    simp [registerClient, he, hf, h8]
  · intro hne hf
    simp [registerClient, hne, hf]
  · intro hne htaken
    have hlen : (requested ++ "-" ++ rand4).length = requested.length + 5 := by
      rw [String.length_append, String.length_append, h4,
        show ("-" : String).length = 1 from rfl]
    refine ⟨by simp [registerClient, hne, htaken], ?_, ?_⟩
    · rw [show (registerClient clients requested rand8 rand4 conn).1
        = requested ++ "-" ++ rand4 by simp [registerClient, hne, htaken]]
      exact hlen
    · rw [show (registerClient clients requested rand8 rand4 conn).1
        = requested ++ "-" ++ rand4 by simp [registerClient, hne, htaken]]
      intro hcontra
      have := congrArg String.length hcontra
      rw [hlen] at this
      omega
  · simp only [registerClient]
    split <;> split <;> simp [Registry.insert]

/-- C3 witness: a free "demo" is assigned verbatim, a second "demo"
request becomes the distinct "demo-ab12", and an empty request gets the
8-character random name. -/
theorem c3_register_witness :
    (registerClient (fun _ => none) "demo" "r8r8r8r8" "ab12" 0).1 = "demo" ∧
    (registerClient (Registry.insert (fun _ => none) "demo" 0) "demo"
      "r8r8r8r8" "ab12" 1).1 = "demo" ++ "-" ++ "ab12" ∧
    (registerClient (Registry.insert (fun _ => none) "demo" 0) "demo"
      "r8r8r8r8" "ab12" 1).1 ≠ "demo" ∧
    (registerClient (fun _ => none) "" "r8r8r8r8" "ab12" 2).1 = "r8r8r8r8" := by
  have h1 := c3_register (fun _ => none) "demo" "r8r8r8r8" "ab12" 0 rfl rfl
  have h2 := c3_register (Registry.insert (fun _ => none) "demo" 0) "demo"
    "r8r8r8r8" "ab12" 1 rfl rfl
  have h3 := c3_register (fun _ => none) "" "r8r8r8r8" "ab12" 2 rfl rfl
  exact ⟨h1.2.1 (by decide) rfl,
         (h2.2.2.1 (by decide) (by decide)).1,
         (h2.2.2.1 (by decide) (by decide)).2.2,
         (h3.1 rfl rfl).1⟩

/-- C4 counterexample: a Register frame whose payload ("junk") does not
deserialize as a `RegisterPayload` nevertheless completes a registration —
the ignored decode error leaves the zero value, the empty subdomain is
replaced by the random 8-character name, and the binding is made. -/
theorem c4_counterexample :
    decodeRegisterPayload (Json.str "junk") = none ∧
    (handleWebSocketHandshake (fun _ => none)
      (Json.obj [("type", Json.str "REGISTER"), ("payload", Json.str "junk")])
      "abcd1234" "ef01" 0).isRegistered = true ∧
    (handleWebSocketHandshake (fun _ => none)
      (Json.obj [("type", Json.str "REGISTER"), ("payload", Json.str "junk")])
      "abcd1234" "ef01" 0).assigned = some "abcd1234" := by
  refine ⟨rfl, by decide, by decide⟩

/-- C4 (amended): a frame whose envelope fails to decode, or whose type is
not Register, drops the connection during the handshake; but a Register
frame whose payload fails to decode as a `RegisterPayload` is *accepted*
with the zero-valued payload — the registration completes exactly as a
request for the empty subdomain would, receiving the random 8-character
name. -/
theorem c4_handshake (clients : Registry) (msg : Json) (rand8 rand4 : String)
    (conn : Nat) :
    (decodeControlMessage msg = none →
      handleWebSocketHandshake clients msg rand8 rand4 conn
        = HandshakeResult.dropped) ∧
    (∀ ctrl, decodeControlMessage msg = some ctrl → ctrl.type ≠ TypeRegister →
      handleWebSocketHandshake clients msg rand8 rand4 conn
        = HandshakeResult.dropped) ∧
    (∀ ctrl, decodeControlMessage msg = some ctrl → ctrl.type = TypeRegister →
      decodeRegisterPayload ctrl.payload = none →
      handleWebSocketHandshake clients msg rand8 rand4 conn
        = HandshakeResult.registered
            (registerClient clients "" rand8 rand4 conn).1
            (registerClient clients "" rand8 rand4 conn).2) := by
  refine ⟨?_, ?_, ?_⟩
  · intro h
    simp [handleWebSocketHandshake, h]
  · intro ctrl hc hty
    simp [handleWebSocketHandshake, hc, hty]
  · intro ctrl hc hty hp
    simp [handleWebSocketHandshake, hc, hty, hp]

/-- C4 witness: a non-object message and a wrong-typed envelope are
dropped; the junk-payload Register frame registers with the random
name. -/
theorem c4_handshake_witness :
    handleWebSocketHandshake (fun _ => none) (Json.num 3) "abcd1234" "ef01" 0
      = HandshakeResult.dropped ∧
    handleWebSocketHandshake (fun _ => none)
      (Json.obj [("type", Json.str "HELLO")]) "abcd1234" "ef01" 0
      = HandshakeResult.dropped ∧
    handleWebSocketHandshake (fun _ => none)
      (Json.obj [("type", Json.str "REGISTER"), ("payload", Json.str "junk")])
      "abcd1234" "ef01" 0
      = HandshakeResult.registered
          (registerClient (fun _ => none) "" "abcd1234" "ef01" 0).1
          (registerClient (fun _ => none) "" "abcd1234" "ef01" 0).2 := by
  have h1 := c4_handshake (fun _ => none) (Json.num 3) "abcd1234" "ef01" 0
  have h2 := c4_handshake (fun _ => none) (Json.obj [("type", Json.str "HELLO")])
    "abcd1234" "ef01" 0
  have h3 := c4_handshake (fun _ => none)
    (Json.obj [("type", Json.str "REGISTER"), ("payload", Json.str "junk")])
    "abcd1234" "ef01" 0
  exact ⟨h1.1 rfl,
         h2.2.1 { type := "HELLO", payload := Json.null } rfl (by decide),
         h3.2.2 { type := "REGISTER", payload := Json.str "junk" } rfl rfl rfl⟩

/-- C1 counterexample: a pending slot is created, the receiver is not yet
parked, and two response frames with that same correlationID arrive (the
entry is not removed by delivery): the first lands in the one-element
channel buffer, the second finds the buffer full with no receiver and the
`ch <- &httpResp` send blocks the relay session's read loop — refuting
"delivered at most once and the deliver step never blocks". -/
theorem c1_counterexample :
    (deliver (Pending.empty.insert "a" Slot.new) ⟨"a", 200, [], "one"⟩).2
      = DeliverEffect.buffered ∧
    (deliver (deliver (Pending.empty.insert "a" Slot.new)
      ⟨"a", 200, [], "one"⟩).1 ⟨"a", 200, [], "two"⟩).2
      = DeliverEffect.wouldBlock := by
  refine ⟨by decide, by decide⟩

/-- C1 (amended): a response frame whose correlationID matches no pending
slot is a strict no-op — nothing is delivered and the table is unchanged
(and the lookup is total: no panic); when a slot is present the send hands
the response to a parked receiver, or buffers it when the one-element
buffer is free, without blocking; the entry is *not* removed by delivery,
and a frame finding the slot's buffer already occupied with no parked
receiver blocks the read loop. -/
theorem c1_deliver (p : Pending) (resp : HttpResponsePayload) :
    (p resp.id = none → deliver p resp = (p, DeliverEffect.dropped)) ∧
    (∀ s, p resp.id = some s → s.receiverWaiting = true →
      deliver p resp = (p.insert resp.id { s with receiverWaiting := false },
        DeliverEffect.handedToReceiver)) ∧
    (∀ s, p resp.id = some s → s.receiverWaiting = false → s.buf = none →
      deliver p resp = (p.insert resp.id { s with buf := some resp },
        DeliverEffect.buffered)) ∧
    (∀ s r0, p resp.id = some s → s.receiverWaiting = false →
      s.buf = some r0 → deliver p resp = (p, DeliverEffect.wouldBlock)) := by
  refine ⟨?_, ?_, ?_, ?_⟩
  · intro h
    simp [deliver, h]
  · intro s hs hr
    simp [deliver, hs, hr]
  · intro s hs hr hb
    simp [deliver, hs, hr, hb]
  · intro s r0 hs hr hb
    simp [deliver, hs, hr, hb]

/-- C1 witness: an unknown id is dropped with the table unchanged; a
parked receiver gets the response; a free buffer takes it. -/
theorem c1_deliver_witness :
    deliver Pending.empty ⟨"z", 200, [], ""⟩
      = (Pending.empty, DeliverEffect.dropped) ∧
    deliver (Pending.empty.insert "a" ⟨none, true⟩) ⟨"a", 200, [], ""⟩
      = ((Pending.empty.insert "a" ⟨none, true⟩).insert "a" ⟨none, false⟩,
         DeliverEffect.handedToReceiver) ∧
    deliver (Pending.empty.insert "a" Slot.new) ⟨"a", 200, [], ""⟩
      = ((Pending.empty.insert "a" Slot.new).insert "a"
          ⟨some ⟨"a", 200, [], ""⟩, false⟩, DeliverEffect.buffered) := by
  have h1 := c1_deliver Pending.empty ⟨"z", 200, [], ""⟩
  have h2 := c1_deliver (Pending.empty.insert "a" ⟨none, true⟩) ⟨"a", 200, [], ""⟩
  have h3 := c1_deliver (Pending.empty.insert "a" Slot.new) ⟨"a", 200, [], ""⟩
  exact ⟨h1.1 rfl,
         h2.2.1 ⟨none, true⟩ (by decide) rfl,
         h3.2.2.1 ⟨none, false⟩ (by decide) rfl rfl⟩

end PublicTunnel
